import Mathlib

/-!
Shallow embedding of the Chatbot_Autogen frontend client.

The repository contains three React client variants:
* `src/frontend/src/App.jsx` — the multi-session client (sessions, current
  session id, per-session messages, file upload);
* `src/unnamed/part_000` — a single-session client with a hard-coded greeting;
* `src/unnamed/part_001` — a single-session client ("v2") with a hard-coded
  greeting and a client-synthesized session id.

Each `useState` hook becomes a field of an explicit state record; each async
handler is split at its `await` points into a synchronous start phase (which
may capture values in a request record, as the JS closure does) and resolve
phases for success and failure.  Network outcomes are parameters of the
resolve functions.  React re-render effects (`useEffect` on
`currentSessionId`) become explicit functions applied after the state change.
-/

namespace Chatbot

/-- A chat message as used by `src/frontend/src/App.jsx`: `{role, content}`. -/
structure Message where
  role : String
  content : String
deriving DecidableEq, Repr

/-- A session as returned by the backend: `{id, title}`. -/
structure Session where
  id : String
  title : String
deriving DecidableEq, Repr

/-- An axios failure as the catch blocks see it: `error.response?.data?.error`
    (the server's structured error field, absent when no JSON error body
    reached the client) and `error.message` (the transport-level message). -/
structure AxiosError where
  responseError : Option String
  message : Option String
deriving DecidableEq, Repr

/-- JavaScript `String.prototype.trim`: strip leading and trailing
    whitespace (modelled over the character list so that it evaluates by
    `decide`). -/
def jsTrim (s : String) : String :=
  String.mk (((s.data.dropWhile Char.isWhitespace).reverse.dropWhile Char.isWhitespace).reverse)

/-- JavaScript `a || b` on strings: an absent or empty string is falsy. -/
def jsOr (a : Option String) (b : String) : String :=
  match a with
  | some s => if s = "" then b else s
  | none => b

/-- `error.response?.data?.error || error.message || 'Unknown error'`
    (src/unnamed/part_000 line 59-62, src/unnamed/part_001 line 64). -/
def errorText (e : AxiosError) : String :=
  jsOr e.responseError (jsOr e.message "Unknown error")

/-! ## Multi-session client: `src/frontend/src/App.jsx` -/

/-- The hook state of the multi-session `App` component (App.jsx lines
    17-23).  `statusTimer` records whether a `setTimeout` clearing
    `uploadStatus` is scheduled (line 126). -/
structure AppState where
  sessions : List Session
  currentSessionId : Option String
  messages : List Message
  inputValue : String
  isLoading : Bool
  isUploading : Bool
  uploadStatus : Option String
  statusTimer : Bool
deriving DecidableEq, Repr

/-- The values the `sendMessage` closure captures at call time and ships in
    the POST `/chat` body (App.jsx lines 92, 101-104): the trimmed message
    and the session id current at the moment of the call. -/
structure SendReq where
  message : String
  sessionId : String
deriving DecidableEq, Repr

/-- `sendMessage` up to the `await` (App.jsx lines 91-99): trim the input,
    return unchanged (no transport call, `none`) unless the guard
    `!message || !currentSessionId || isLoading` passes; otherwise append the
    optimistic user message, clear the input, set `isLoading`, and issue the
    request carrying the call-time session id. -/
def sendMessageStart (s : AppState) : AppState × Option SendReq :=
  let message := jsTrim s.inputValue
  match s.currentSessionId with
  | none => (s, none)
  | some sid =>
      if message = "" ∨ s.isLoading then (s, none)
      else
        ({ s with
            messages := s.messages ++ [{ role := "user", content := message }]
            inputValue := ""
            isLoading := true },
         some { message := message, sessionId := sid })

/-- `sendMessage` success continuation (App.jsx lines 105, 109): append the
    assistant reply from `res.data.response` and clear `isLoading`.  The
    captured request `req` is not consulted: the code performs no check that
    `req.sessionId` still matches `currentSessionId`. -/
def sendMessageOk (s : AppState) (req : SendReq) (response : String) : AppState :=
  let _ := req
  { s with
      messages := s.messages ++ [{ role := "assistant", content := response }]
      isLoading := false }

/-- `sendMessage` catch block (App.jsx lines 106-109): append the fixed
    string; the error object `e` is ignored entirely. -/
def sendMessageErr (s : AppState) (req : SendReq) (e : AxiosError) : AppState :=
  let _ := req
  let _ := e
  { s with
      messages := s.messages ++ [{ role := "assistant", content := "❌ Connection Error" }]
      isLoading := false }

/-- Clicking a session in the sidebar: `onClick={() => setCurrentSessionId(s.id)}`
    (App.jsx line 151). -/
def setCurrentSessionId (s : AppState) (id : Option String) : AppState :=
  { s with currentSessionId := id }

/-- The `useEffect` on `currentSessionId` (App.jsx lines 34-40) together with
    `fetchMessages` (lines 82-89): when the current id is non-null a GET is
    issued whose outcome is `fetched` — on success (`some data`) the messages
    are replaced wholesale, on failure (`none`) the catch block only logs and
    the state is unchanged; when the current id is null the messages are
    cleared. -/
def sessionChangeEffect (s : AppState) (fetched : Option (List Message)) : AppState :=
  match s.currentSessionId with
  | some _ =>
      match fetched with
      | some data => { s with messages := data }
      | none => s
  | none => { s with messages := [] }

/-- `deleteSession` after a successful DELETE (App.jsx lines 71-76): filter
    the id out of the list; if it was the current selection, select the new
    head of the remaining list or null when the list became empty. -/
def deleteSessionOk (s : AppState) (id : String) : AppState :=
  let newSessions := s.sessions.filter (fun x => x.id ≠ id)
  let s1 := { s with sessions := newSessions }
  if s.currentSessionId = some id then
    { s1 with
        currentSessionId :=
          match newSessions with
          | [] => none
          | x :: _ => some x.id }
  else s1

/-- `createNewSession` after a successful POST (App.jsx lines 60-62):
    prepend the backend-returned session and select it. -/
def createNewSessionOk (s : AppState) (sess : Session) : AppState :=
  { s with sessions := sess :: s.sessions, currentSessionId := some sess.id }

/-! ### Upload (App.jsx lines 113-133 and the upload button, lines 256-260) -/

/-- Delay of the `setTimeout` clearing the success status (App.jsx line 126). -/
def uploadClearDelayMs : Nat := 3000

/-- `handleFileUpload` up to the `await` (App.jsx lines 113-122): `file` is
    `e.target.files[0]` (none when no file was picked); returns whether a
    POST `/upload` transport call was made.  Note the handler itself performs
    no `isUploading` check. -/
def handleFileUploadStart (s : AppState) (file : Option String) : AppState × Bool :=
  match file with
  | none => (s, false)
  | some _ =>
      ({ s with isUploading := true, uploadStatus := some "Uploading & Indexing..." }, true)

/-- The upload affordance as the UI composes it: the only way to open the
    file picker is the button with `disabled={isUploading}` (App.jsx lines
    256-260), so while uploading a click is a no-op and `handleFileUpload`
    cannot fire. -/
def uploadButtonClick (s : AppState) (file : Option String) : AppState × Bool :=
  if s.isUploading then (s, false)
  else handleFileUploadStart s file

/-- `handleFileUpload` success continuation (App.jsx lines 124-126, 129-131):
    set the success status, schedule the clearing timer, and (in `finally`)
    clear `isUploading`. -/
def handleFileUploadOk (s : AppState) : AppState :=
  { s with
      uploadStatus := some "✅ File indexed! Knowledge added."
      statusTimer := true
      isUploading := false }

/-- `handleFileUpload` catch block plus `finally` (App.jsx lines 127-131):
    set the failure status and clear `isUploading`.  No timer is scheduled
    on this path. -/
def handleFileUploadErr (s : AppState) : AppState :=
  { s with
      uploadStatus := some "❌ Failed to index file."
      isUploading := false }

/-- The scheduled `setTimeout(() => setUploadStatus(null), 3000)` firing
    (App.jsx line 126): clears the status when a timer was scheduled. -/
def statusTimerFire (s : AppState) : AppState :=
  if s.statusTimer then { s with uploadStatus := none, statusTimer := false } else s

/-! ## Single-session client: `src/unnamed/part_000` -/

/-- A message of the single-session variants: `{content, isUser}`. -/
structure VMsg where
  content : String
  isUser : Bool
deriving DecidableEq, Repr

/-- Hard-coded greeting of `src/unnamed/part_000` (lines 10-15). -/
def p0Greeting : VMsg :=
  { content := "Hello! I'm your AI assistant. How can I help you today?"
    isUser := false }

/-- The `sendMessage` of part_000 captures `newMessages = [...messages, userMsg]`
    in its closure and later calls `setMessages([...newMessages, reply])`
    (lines 32, 49-55, 64-70), so the resolve phases write relative to this
    captured list, not to `prev`. -/
structure P0Pending where
  newMessages : List VMsg
deriving DecidableEq, Repr

/-- Hook state of part_000 (lines 10-17) plus the outstanding request. -/
structure P0State where
  messages : List VMsg
  inputValue : String
  isLoading : Bool
  pending : Option P0Pending
deriving DecidableEq, Repr

/-- Initial state of part_000: one hard-coded assistant greeting, empty
    input, not loading. -/
def p0Init : P0State :=
  { messages := [p0Greeting], inputValue := "", isLoading := false, pending := none }

/-- part_000 `sendMessage` up to the `await` (lines 28-35): guard
    `!message || isLoading`, then set messages to the captured
    `newMessages`, clear the input, set `isLoading`. -/
def p0SendStart (s : P0State) : P0State :=
  let message := jsTrim s.inputValue
  if message = "" ∨ s.isLoading then s
  else
    let newMessages := s.messages ++ [{ content := message, isUser := true }]
    { messages := newMessages
      inputValue := ""
      isLoading := true
      pending := some { newMessages := newMessages } }

/-- part_000 `sendMessage` success continuation (lines 49-55, 71-73):
    `setMessages([...newMessages, {content: response.data.response, isUser: false}])`
    then `setIsLoading(false)`. -/
def p0ResolveOk (s : P0State) (resp : String) : P0State :=
  match s.pending with
  | none => s
  | some p =>
      { s with
          messages := p.newMessages ++ [{ content := resp, isUser := false }]
          isLoading := false
          pending := none }

/-- part_000 `sendMessage` catch block (lines 56-70, 71-73): the error text
    follows `error.response?.data?.error || error.message || 'Unknown error'`
    and is appended as `❌ Backend error: ...` after the captured list. -/
def p0ResolveErr (s : P0State) (e : AxiosError) : P0State :=
  match s.pending with
  | none => s
  | some p =>
      { s with
          messages := p.newMessages ++
            [{ content := "❌ Backend error: " ++ errorText e, isUser := false }]
          isLoading := false
          pending := none }

/-- External events driving part_000: the user edits the input, clicks send,
    and the outstanding request resolves with a reply or an error. -/
inductive P0Ev where
  | setInput (v : String)
  | send
  | resolveOk (resp : String)
  | resolveErr (e : AxiosError)
deriving DecidableEq, Repr

/-- One event step of part_000. -/
def p0Step (s : P0State) : P0Ev → P0State
  | .setInput v => { s with inputValue := v }
  | .send => p0SendStart s
  | .resolveOk resp => p0ResolveOk s resp
  | .resolveErr e => p0ResolveErr s e

/-- Run part_000 from its initial state over a list of events. -/
def p0Run (es : List P0Ev) : P0State :=
  es.foldl p0Step p0Init

/-! ## Single-session client v2: `src/unnamed/part_001` -/

/-- Hard-coded greeting of `src/unnamed/part_001` (lines 14-19). -/
def p1Greeting : VMsg :=
  { content := "Hello! I'm your high-performance AI assistant. I'm powered by Groq and LangChain, featuring conversational memory. How can I help you today?"
    isUser := false }

/-- The session id initializer of part_001 (line 22):
    `` `session_${Math.random().toString(36).substr(2, 9)}_${Date.now()}` `` —
    computed on the client from a random string and the clock, with no
    backend involvement.  `rand` models `Math.random().toString(36).substr(2, 9)`
    and `now` models `Date.now()`. -/
def mkSessionId (rand : String) (now : Nat) : String :=
  "session_" ++ rand ++ "_" ++ toString now

/-- Hook state of part_001 (lines 14-23) plus the outstanding request and a
    ghost field `backendIds` recording every session id ever received in a
    backend response (the chat endpoint only returns `{response: string}`,
    so no transition extends it). -/
structure P1State where
  messages : List VMsg
  inputValue : String
  isLoading : Bool
  sessionId : String
  pending : Bool
  backendIds : List String
deriving DecidableEq, Repr

/-- Initial state of part_001: one hard-coded assistant greeting and the
    client-synthesized session id. -/
def p1Init (rand : String) (now : Nat) : P1State :=
  { messages := [p1Greeting]
    inputValue := ""
    isLoading := false
    sessionId := mkSessionId rand now
    pending := false
    backendIds := [] }

/-- part_001 `sendMessage` up to the `await` (lines 33-40): guard
    `!message || isLoading`, optimistic append via
    `setMessages(prev => [...prev, userMsg])`, clear input, set loading. -/
def p1SendStart (s : P1State) : P1State :=
  let message := jsTrim s.inputValue
  if message = "" ∨ s.isLoading then s
  else
    { s with
        messages := s.messages ++ [{ content := message, isUser := true }]
        inputValue := ""
        isLoading := true
        pending := true }

/-- part_001 `sendMessage` success continuation (lines 55-61, 72-74):
    append `{content: response.data.response, isUser: false}` via a
    `prev =>` update and clear loading. -/
def p1ResolveOk (s : P1State) (resp : String) : P1State :=
  if s.pending then
    { s with
        messages := s.messages ++ [{ content := resp, isUser := false }]
        isLoading := false
        pending := false }
  else s

/-- part_001 `sendMessage` catch block (lines 62-71, 72-74): the error text
    follows `error.response?.data?.error || error.message || 'Unknown error'`
    and is appended after the marker line `### âŒ Connection Error` (the
    literal characters in the source file). -/
def p1ResolveErr (s : P1State) (e : AxiosError) : P1State :=
  if s.pending then
    { s with
        messages := s.messages ++
          [{ content := "### âŒ Connection Error\n" ++ errorText e, isUser := false }]
        isLoading := false
        pending := false }
  else s

/-- External events driving part_001. -/
inductive P1Ev where
  | setInput (v : String)
  | send
  | resolveOk (resp : String)
  | resolveErr (e : AxiosError)
deriving DecidableEq, Repr

/-- One event step of part_001. -/
def p1Step (s : P1State) : P1Ev → P1State
  | .setInput v => { s with inputValue := v }
  | .send => p1SendStart s
  | .resolveOk resp => p1ResolveOk s resp
  | .resolveErr e => p1ResolveErr s e

/-- Run part_001 from its initial state over a list of events. -/
def p1Run (rand : String) (now : Nat) (es : List P1Ev) : P1State :=
  es.foldl p1Step (p1Init rand now)

/-! ## Session lifecycle traces of App.jsx

A trace machine over the session-related handlers of `App.jsx`
(`fetchSessions`, the sidebar click, `createNewSession`, `deleteSession`),
faithful to the closure semantics: each async handler captures the hook
values of the render it was created in, so an outstanding call carries those
captured values until it resolves.  The ghost field `issued` records every
session id that ever appeared in a backend response body. -/

/-- What the `deleteSession` closure captures at click time (App.jsx lines
    68-76): the rendered `sessions` list, the rendered `currentSessionId`,
    and the id of the clicked session. -/
structure DelCapture where
  sessions : List Session
  current : Option String
  id : String
deriving DecidableEq, Repr

/-- Session-related state of `App.jsx` plus outstanding-call captures and
    the `issued` ghost. -/
structure SessState where
  sessions : List Session
  current : Option String
  pendingCreates : List (List Session)
  pendingDeletes : List DelCapture
  issued : List String
deriving DecidableEq, Repr

/-- Initial hook state (App.jsx lines 17-18): no sessions, no selection. -/
def sessInit : SessState :=
  { sessions := [], current := none, pendingCreates := [], pendingDeletes := [], issued := [] }

/-- Session-related external events.  `fetchSessionsOk` carries the
    `currentSessionId` value captured by the `fetchSessions` closure (the
    call happens at mount, where it is null; the model allows any captured
    value, which only widens the set of runs). -/
inductive SessEv where
  | fetchSessionsOk (capt : Option String) (data : List Session)
  | fetchSessionsErr
  | clickSession (i : Nat)
  | clickNewChat
  | createOk (sess : Session)
  | createErr
  | clickDelete (i : Nat)
  | deleteOk
  | deleteErr
deriving DecidableEq, Repr

/-- One event step of the session machine.

* `fetchSessionsOk` (App.jsx lines 46-52): `setSessions(res.data)`; when the
  list is non-empty and the captured `currentSessionId` was null,
  `setCurrentSessionId(res.data[0].id)`.
* `clickSession i` (line 151): select the i-th rendered session.
* `clickNewChat` (lines 58-66): start `createNewSession`, capturing
  `sessions`; `createOk sess` applies `setSessions([res.data, ...sessions])`
  and `setCurrentSessionId(res.data.id)` with the captured list.
* `clickDelete i` (line 157): start `deleteSession(e, id)` on the i-th
  rendered session, capturing `sessions`, `currentSessionId` and the id;
  `deleteOk` applies lines 72-76 with the captured values.
* the `Err` events are the catch blocks, which only log. -/
def sessStep (s : SessState) : SessEv → SessState
  | .fetchSessionsOk capt data =>
      let s1 := { s with sessions := data, issued := data.map (fun x => x.id) ++ s.issued }
      match data with
      | [] => s1
      | d :: _ => if capt = none then { s1 with current := some d.id } else s1
  | .fetchSessionsErr => s
  | .clickSession i =>
      match s.sessions[i]? with
      | some x => { s with current := some x.id }
      | none => s
  | .clickNewChat =>
      { s with pendingCreates := s.pendingCreates ++ [s.sessions] }
  | .createOk sess =>
      match s.pendingCreates with
      | [] => s
      | c :: rest =>
          { s with
              sessions := sess :: c
              current := some sess.id
              pendingCreates := rest
              issued := sess.id :: s.issued }
  | .createErr =>
      match s.pendingCreates with
      | [] => s
      | _ :: rest => { s with pendingCreates := rest }
  | .clickDelete i =>
      match s.sessions[i]? with
      | some x =>
          { s with
              pendingDeletes :=
                s.pendingDeletes ++ [{ sessions := s.sessions, current := s.current, id := x.id }] }
      | none => s
  | .deleteOk =>
      match s.pendingDeletes with
      | [] => s
      | c :: rest =>
          let ns := c.sessions.filter (fun x => x.id ≠ c.id)
          let base := { s with sessions := ns, pendingDeletes := rest }
          if c.current = some c.id then
            { base with
                current :=
                  match ns with
                  | [] => none
                  | x :: _ => some x.id }
          else base
  | .deleteErr =>
      match s.pendingDeletes with
      | [] => s
      | _ :: rest => { s with pendingDeletes := rest }

/-- Run the session machine from the initial state over a list of events. -/
def sessRun (es : List SessEv) : SessState :=
  es.foldl sessStep sessInit

/-- Every session id the client state holds: the listed sessions' ids, the
    current selection, and the ids inside outstanding-call captures. -/
def sessHeldIds (s : SessState) : List String :=
  s.sessions.map (fun x => x.id)
    ++ s.current.toList
    ++ (s.pendingCreates.map (fun c => c.map (fun x => x.id))).flatten
    ++ (s.pendingDeletes.map (fun c =>
          c.sessions.map (fun x => x.id) ++ c.current.toList ++ [c.id])).flatten

/-! ## Concrete scenario states -/

/-- Two backend-provided sessions, as in the spec scenario `[A, B]`. -/
def demoSessions : List Session :=
  [{ id := "A", title := "Chat A" }, { id := "B", title := "Chat B" }]

/-- Session `A` selected, empty conversation, input `"hi"` typed. -/
def demoState : AppState :=
  { sessions := demoSessions
    currentSessionId := some "A"
    messages := []
    inputValue := "hi"
    isLoading := false
    isUploading := false
    uploadStatus := none
    statusTimer := false }

/-- The request `sendMessage` issues from `demoState`. -/
def demoReq : SendReq := { message := "hi", sessionId := "A" }

/-- `demoState` right after the optimistic phase of `sendMessage`. -/
def demoSent : AppState :=
  { demoState with
      messages := [{ role := "user", content := "hi" }]
      inputValue := ""
      isLoading := true }

/-- `demoState` with only whitespace typed. -/
def demoBlankInput : AppState := { demoState with inputValue := "   " }

/-- A conversation already loaded for session `A`. -/
def msgsA : List Message :=
  [{ role := "user", content := "an earlier message in A" },
   { role := "assistant", content := "an earlier reply in A" }]

/-- Session `A` selected with its history loaded and no input typed. -/
def demoAHistory : AppState := { demoState with messages := msgsA, inputValue := "" }

/-- `demoState` with no session selected. -/
def demoNoSession : AppState := { demoState with currentSessionId := none }

/-- A server failure with a structured error body `{error: "rate limited"}`. -/
def rateLimitedErr : AxiosError :=
  { responseError := some "rate limited"
    message := some "Request failed with status code 429" }

/-- A transport failure that never reached the server: no structured error
    field, only axios's own message. -/
def networkErr : AxiosError :=
  { responseError := none, message := some "Network Error" }

/-! ## Invariant predicates -/

/-- Every session id the client holds was issued by the backend. -/
def SessInv (s : SessState) : Prop :=
  ∀ id ∈ sessHeldIds s, id ∈ s.issued

/-- The part_000 conversation always starts with the hard-coded greeting,
    also inside the list captured by an outstanding send. -/
def P0Inv (s : P0State) : Prop :=
  s.messages.head? = some p0Greeting
  ∧ ∀ p, s.pending = some p → p.newMessages.head? = some p0Greeting

/-- The part_001 conversation always starts with the hard-coded greeting. -/
def P1Inv (s : P1State) : Prop :=
  s.messages.head? = some p1Greeting

/-- Component-wise formulation of `SessInv`, convenient for the inductive
    preservation proof. -/
def SessInvParts (s : SessState) : Prop :=
  (∀ x ∈ s.sessions, x.id ∈ s.issued)
  ∧ (∀ a, s.current = some a → a ∈ s.issued)
  ∧ (∀ c ∈ s.pendingCreates, ∀ x ∈ c, x.id ∈ s.issued)
  ∧ (∀ c ∈ s.pendingDeletes,
      (∀ x ∈ c.sessions, x.id ∈ s.issued)
        ∧ (∀ a, c.current = some a → a ∈ s.issued)
        ∧ c.id ∈ s.issued)

/-! ## Theorems -/

/-- Claim C3: from `demoState` (sessions `[A, B]`, `A` selected, input
    `"hi"`), `sendMessage` first appends the optimistic `{user, "hi"}` in
    its synchronous phase, and on success with reply `"hello"` appends the
    assistant message, giving `[{user,"hi"}, {assistant,"hello"}]`; in
    general every phase of `sendMessage` only appends to the message list
    (order equals call order, no reordering, editing, or deletion). -/
theorem c3_send_append_order :
    (sendMessageStart demoState
        = (demoSent, some demoReq)
      ∧ (sendMessageOk demoSent demoReq "hello").messages
        = [{ role := "user", content := "hi" }, { role := "assistant", content := "hello" }])
    ∧ (∀ s : AppState, ∃ t, ((sendMessageStart s).1).messages = s.messages ++ t)
    ∧ (∀ s req r, (sendMessageOk s req r).messages
        = s.messages ++ [{ role := "assistant", content := r }])
    ∧ (∀ s req e, (sendMessageErr s req e).messages
        = s.messages ++ [{ role := "assistant", content := "❌ Connection Error" }]) := by
  refine ⟨⟨by decide, by decide⟩, ?_, ?_, ?_⟩
  · intro s
    cases hc : s.currentSessionId with
    | none => exact ⟨[], by simp [sendMessageStart, hc]⟩
    | some sid =>
        by_cases hg : jsTrim s.inputValue = "" ∨ s.isLoading = true
        · refine ⟨[], ?_⟩
          simp only [sendMessageStart, hc]
          rw [if_pos (by simpa using hg)]
          simp
        · refine ⟨[{ role := "user", content := jsTrim s.inputValue }], ?_⟩
          simp only [sendMessageStart, hc]
          rw [if_neg (by simpa using hg)]
  · intro s req r
    rfl
  · intro s req e
    rfl

/-- Claim C5: `sendMessage` is a complete no-op (no transport call, state
    returned unchanged) when the trimmed input is empty, when no session is
    selected, or when a send is already pending; consequently a second call
    issued while the first is outstanding makes no transport call, so two
    overlapping calls make exactly one. -/
theorem c5_sendMessage_noop_guards (s : AppState) :
    (jsTrim s.inputValue = "" → sendMessageStart s = (s, none))
    ∧ (s.currentSessionId = none → sendMessageStart s = (s, none))
    ∧ (s.isLoading = true → sendMessageStart s = (s, none))
    ∧ (∀ s' req, sendMessageStart s = (s', some req) → sendMessageStart s' = (s', none)) := by
  refine ⟨?_, ?_, ?_, ?_⟩
  · intro h
    cases hc : s.currentSessionId with
    | none => simp [sendMessageStart, hc]
    | some sid => simp [sendMessageStart, hc, h]
  · intro h
    simp [sendMessageStart, h]
  · intro h
    cases hc : s.currentSessionId with
    | none => simp [sendMessageStart, hc]
    | some sid => simp [sendMessageStart, hc, h]
  · intro s' req h
    have hload : s'.isLoading = true := by
      cases hc : s.currentSessionId with
      | none => rw [sendMessageStart] at h; simp [hc] at h
      | some sid =>
          rw [sendMessageStart] at h
          simp only [hc] at h
          split at h
          · simp at h
          · rw [Prod.mk.injEq] at h
            rw [← h.1]
    cases hc2 : s'.currentSessionId with
    | none => simp [sendMessageStart, hc2]
    | some sid2 => simp [sendMessageStart, hc2, hload]

/-- Witness for C5: blank input `"   "`, no selected session, an
    already-loading state, and a second call issued right after a first
    outstanding one — each is a no-op returning the state unchanged with no
    transport request. -/
theorem c5_sendMessage_noop_guards_witness :
    sendMessageStart demoBlankInput = (demoBlankInput, none)
    ∧ sendMessageStart demoNoSession = (demoNoSession, none)
    ∧ sendMessageStart demoSent = (demoSent, none) :=
  ⟨(c5_sendMessage_noop_guards demoBlankInput).1 (by decide),
   (c5_sendMessage_noop_guards demoNoSession).2.1 rfl,
   (c5_sendMessage_noop_guards demoState).2.2.2 demoSent demoReq (by decide)⟩

/-- Claim C1 — the code violates it.  From `demoState` the user sends
    `"hi"` for session `A` (the request is tagged `sessionId = "A"`); while
    it is outstanding the user clicks session `B` and `B`'s message fetch
    returns `[]`; when the send for `A` then resolves with `"hello"`, the
    success continuation appends the reply to the conversation now showing
    `B` — the late reply is NOT dropped, although its request targeted the
    since-abandoned session `A`. -/
theorem c1_stale_reply_not_dropped :
    sendMessageStart demoState = (demoSent, some demoReq)
    ∧ demoReq.sessionId = "A"
    ∧ (sessionChangeEffect (setCurrentSessionId demoSent (some "B")) (some [])).currentSessionId
        = some "B"
    ∧ (sendMessageOk (sessionChangeEffect (setCurrentSessionId demoSent (some "B")) (some []))
          demoReq "hello").currentSessionId = some "B"
    ∧ (sendMessageOk (sessionChangeEffect (setCurrentSessionId demoSent (some "B")) (some []))
          demoReq "hello").messages
        = [{ role := "assistant", content := "hello" }] := by
  decide

/-- Counterexample to claim C2 as stated: with session `A` selected and a
    non-empty conversation, clicking session `B` whose message fetch fails
    leaves the prior session's messages in memory — the prior Conversation
    contents are not invalidated — while `currentSessionId` is now `B`. -/
theorem c2_counterexample :
    (sessionChangeEffect (setCurrentSessionId demoAHistory (some "B")) none).currentSessionId
        = some "B"
    ∧ (sessionChangeEffect (setCurrentSessionId demoAHistory (some "B")) none).messages
        = msgsA
    ∧ msgsA ≠ [] := by
  decide

/-- Claim C2 as amended: switching `currentSessionId` triggers a fresh
    fetch whose success replaces the conversation wholesale and switching to
    null clears it, but when the fetch of the new session's messages fails
    the prior conversation contents remain unchanged. -/
theorem c2_switch_effect (s : AppState) :
    (∀ id data, s.currentSessionId = some id →
        (sessionChangeEffect s (some data)).messages = data)
    ∧ (∀ r, s.currentSessionId = none → (sessionChangeEffect s r).messages = [])
    ∧ (∀ id, s.currentSessionId = some id → sessionChangeEffect s none = s) := by
  refine ⟨?_, ?_, ?_⟩
  · intro id data h
    simp [sessionChangeEffect, h]
  · intro r h
    simp [sessionChangeEffect, h]
  · intro id h
    simp [sessionChangeEffect, h]

/-- Witness for the amended C2 at concrete states: a successful fetch after
    switching to `B` replaces the conversation, switching to null clears it,
    and a failed fetch leaves the state untouched. -/
theorem c2_switch_effect_witness :
    (sessionChangeEffect (setCurrentSessionId demoAHistory (some "B")) (some [])).messages = []
    ∧ (sessionChangeEffect (setCurrentSessionId demoAHistory none) none).messages = []
    ∧ sessionChangeEffect demoAHistory none = demoAHistory :=
  ⟨(c2_switch_effect (setCurrentSessionId demoAHistory (some "B"))).1 "B" [] rfl,
   (c2_switch_effect (setCurrentSessionId demoAHistory none)).2.1 none rfl,
   (c2_switch_effect demoAHistory).2.2 "A" rfl⟩

/-- Counterexample to claim C4 as stated: in the multi-session client a
    send that fails with the server error `{error: "rate limited"}` appends
    the fixed text `❌ Connection Error`, which does not carry the server's
    error field — indeed the appended state is identical to the one for a
    plain network failure. -/
theorem c4_counterexample :
    (sendMessageErr demoSent demoReq rateLimitedErr).messages
        = [{ role := "user", content := "hi" },
           { role := "assistant", content := "❌ Connection Error" }]
    ∧ sendMessageErr demoSent demoReq rateLimitedErr
        = sendMessageErr demoSent demoReq networkErr := by
  decide

/-- Claim C4 as amended: on every failed send the optimistic user message
    stays in place and a synthetic assistant message is appended after it;
    in the single-session variants (part_000, part_001) its text follows the
    priority order server error field → transport message → "Unknown error"
    behind the variant's failure marker, while the multi-session client
    appends the fixed text `❌ Connection Error` regardless of the error. -/
theorem c4_error_message_policy (e : AxiosError) :
    (∀ s req, (sendMessageErr s req e).messages
        = s.messages ++ [{ role := "assistant", content := "❌ Connection Error" }])
    ∧ (∀ msg, e.responseError = some msg → msg ≠ "" → errorText e = msg)
    ∧ (∀ msg, e.responseError = none → e.message = some msg → msg ≠ "" →
        errorText e = msg)
    ∧ (e.responseError = none → e.message = none → errorText e = "Unknown error")
    ∧ (∀ q pd, q.pending = some pd →
        (p0ResolveErr q e).messages
          = pd.newMessages
              ++ [{ content := "❌ Backend error: " ++ errorText e, isUser := false }])
    ∧ (∀ p : P1State, p.pending = true →
        (p1ResolveErr p e).messages
          = p.messages
              ++ [{ content := "### âŒ Connection Error\n" ++ errorText e, isUser := false }]) := by
  refine ⟨fun s req => rfl, ?_, ?_, ?_, ?_, ?_⟩
  · intro msg h hne
    simp [errorText, jsOr, h, hne]
  · intro msg h h2 hne
    simp [errorText, jsOr, h, h2, hne]
  · intro h h2
    simp [errorText, jsOr, h, h2]
  · intro q pd h
    simp [p0ResolveErr, h]
  · intro p h
    simp [p1ResolveErr, h]

/-- Witness for the amended C4: a failed send with server error
    `{error: "rate limited"}` right after the optimistic `"hi"`.  The
    multi-session client ends with `[{user,"hi"}, {assistant,"❌ Connection
    Error"}]`; part_001 ends with the marker line followed by
    `rate limited`; the priority order is exercised on all three error
    shapes. -/
theorem c4_error_message_policy_witness :
    (sendMessageErr demoSent demoReq rateLimitedErr).messages
        = [{ role := "user", content := "hi" },
           { role := "assistant", content := "❌ Connection Error" }]
    ∧ errorText rateLimitedErr = "rate limited"
    ∧ errorText networkErr = "Network Error"
    ∧ errorText { responseError := none, message := none } = "Unknown error"
    ∧ (p1ResolveErr (p1SendStart { p1Init "r" 7 with inputValue := "hi" }) rateLimitedErr).messages
        = [p1Greeting, { content := "hi", isUser := true },
           { content := "### âŒ Connection Error\nrate limited", isUser := false }] := by
  refine ⟨?_, ?_, ?_, ?_, ?_⟩
  · exact ((c4_error_message_policy rateLimitedErr).1 demoSent demoReq).trans (by decide)
  · exact (c4_error_message_policy rateLimitedErr).2.1 "rate limited" rfl (by decide)
  · exact (c4_error_message_policy networkErr).2.2.1 "Network Error" rfl rfl (by decide)
  · exact (c4_error_message_policy { responseError := none, message := none }).2.2.2.1 rfl rfl
  · exact ((c4_error_message_policy rateLimitedErr).2.2.2.2.2
        (p1SendStart { p1Init "r" 7 with inputValue := "hi" }) (by decide)).trans (by decide)

/-- Claim C6: after a successful `deleteSession id` the session is removed
    from the local list (the other sessions staying in order); if `id` was
    the current selection the new selection is the head of the remaining
    list, or null when the list became empty — in which case the session
    change effect clears the conversation; if `id` was not the current
    selection the selection is unchanged. -/
theorem c6_deleteSession (s : AppState) (id : String) :
    ((deleteSessionOk s id).sessions = s.sessions.filter (fun x => x.id ≠ id))
    ∧ (∀ x ∈ (deleteSessionOk s id).sessions, x.id ≠ id)
    ∧ (s.currentSessionId = some id →
        (deleteSessionOk s id).currentSessionId
          = ((s.sessions.filter (fun x => x.id ≠ id)).head?).map Session.id)
    ∧ (s.currentSessionId ≠ some id →
        (deleteSessionOk s id).currentSessionId = s.currentSessionId)
    ∧ (s.currentSessionId = some id → s.sessions.filter (fun x => x.id ≠ id) = [] →
        ∀ r, (sessionChangeEffect (deleteSessionOk s id) r).messages = []) := by
  have hsess : (deleteSessionOk s id).sessions = s.sessions.filter (fun x => x.id ≠ id) := by
    by_cases hcur : s.currentSessionId = some id <;> simp [deleteSessionOk, hcur]
  refine ⟨hsess, ?_, ?_, ?_, ?_⟩
  · intro x hx
    rw [hsess] at hx
    simpa using (List.mem_filter.mp hx).2
  · intro h
    simp only [deleteSessionOk, if_pos h]
    cases hf : s.sessions.filter (fun x => x.id ≠ id) <;> simp [hf]
  · intro h
    simp [deleteSessionOk, if_neg h]
  · intro h hf r
    have hcur : (deleteSessionOk s id).currentSessionId = none := by
      have hf' : List.filter (fun x => !decide (x.id = id)) s.sessions = [] := by
        simpa using hf
      simp only [deleteSessionOk, if_pos h]
      simp [hf']
    simp [sessionChangeEffect, hcur]

/-- Witness for C6 on `demoState` (sessions `[A, B]`, `A` selected):
    deleting `A` removes it and selects `B`; deleting `B` leaves `A`
    selected; deleting `A` when it is the only session empties the list,
    selects null, and the session change effect clears the conversation. -/
theorem c6_deleteSession_witness :
    (deleteSessionOk demoState "A").currentSessionId = some "B"
    ∧ (∀ x ∈ (deleteSessionOk demoState "A").sessions, x.id ≠ "A")
    ∧ (deleteSessionOk demoState "B").currentSessionId = some "A"
    ∧ (sessionChangeEffect
          (deleteSessionOk { demoState with sessions := [{ id := "A", title := "Chat A" }] } "A")
          none).messages = [] :=
  ⟨((c6_deleteSession demoState "A").2.2.1 rfl).trans (by decide),
   fun x hx => (c6_deleteSession demoState "A").2.1 x hx,
   ((c6_deleteSession demoState "B").2.2.2.1 (by decide)).trans rfl,
   (c6_deleteSession { demoState with sessions := [{ id := "A", title := "Chat A" }] }
      "A").2.2.2.2 rfl (by decide) none⟩

/-- Claim C8: while an upload is outstanding (`isUploading`), the upload
    affordance is a no-op — no state change and no second transport call —
    and from an idle state picking a file makes exactly one transport call,
    enters `uploading`, rejects a second attempt issued before the first
    resolves, and either resolution returns `isUploading` to false. -/
theorem c8_upload_mutex (s : AppState) (f : Option String) :
    (s.isUploading = true → uploadButtonClick s f = (s, false))
    ∧ (∀ name, s.isUploading = false → f = some name →
        (uploadButtonClick s f).2 = true
        ∧ (uploadButtonClick s f).1.isUploading = true
        ∧ (∀ g, uploadButtonClick (uploadButtonClick s f).1 g = ((uploadButtonClick s f).1, false))
        ∧ (handleFileUploadOk (uploadButtonClick s f).1).isUploading = false
        ∧ (handleFileUploadErr (uploadButtonClick s f).1).isUploading = false) := by
  constructor
  · intro h
    simp [uploadButtonClick, h]
  · intro name h hf
    have h1 : uploadButtonClick s f
        = ({ s with isUploading := true, uploadStatus := some "Uploading & Indexing..." }, true) := by
      simp [uploadButtonClick, handleFileUploadStart, h, hf]
    refine ⟨by rw [h1], by rw [h1], ?_, by rw [h1]; rfl, by rw [h1]; rfl⟩
    intro g
    rw [h1]
    simp [uploadButtonClick]

/-- Witness for C8: from `demoState` (idle) picking `doc.pdf` makes the one
    transport call and enters `uploading`; a second pick of `notes.txt`
    before resolution is rejected with no transport call; after the success
    resolution `isUploading` is false again. -/
theorem c8_upload_mutex_witness :
    (uploadButtonClick demoState (some "doc.pdf")).2 = true
    ∧ (uploadButtonClick (uploadButtonClick demoState (some "doc.pdf")).1 (some "notes.txt")
        = ((uploadButtonClick demoState (some "doc.pdf")).1, false))
    ∧ (handleFileUploadOk (uploadButtonClick demoState (some "doc.pdf")).1).isUploading = false :=
  ⟨((c8_upload_mutex demoState (some "doc.pdf")).2 "doc.pdf" rfl rfl).1,
   ((c8_upload_mutex demoState (some "doc.pdf")).2 "doc.pdf" rfl rfl).2.2.1 (some "notes.txt"),
   ((c8_upload_mutex demoState (some "doc.pdf")).2 "doc.pdf" rfl rfl).2.2.2.1⟩

/-- Counterexample to claim C9 as stated: after an upload failure the
    status is the failure text and no clearing timer is scheduled — the
    timer event leaves the state fixed, so the failure status persists
    indefinitely rather than auto-reverting to idle. -/
theorem c9_counterexample :
    (handleFileUploadErr (uploadButtonClick demoState (some "doc.pdf")).1).uploadStatus
        = some "❌ Failed to index file."
    ∧ statusTimerFire (handleFileUploadErr (uploadButtonClick demoState (some "doc.pdf")).1)
        = handleFileUploadErr (uploadButtonClick demoState (some "doc.pdf")).1 := by
  decide

/-- Claim C9 as amended: only the success outcome schedules the 3-second
    clearing timer, whose firing reverts the status to idle; the failure
    outcome sets its status without scheduling a timer, so (absent a
    previously scheduled success timer) the failure status persists until
    some later upload overwrites it. -/
theorem c9_upload_status_policy (s : AppState) :
    ((handleFileUploadOk s).uploadStatus = some "✅ File indexed! Knowledge added.")
    ∧ ((handleFileUploadOk s).statusTimer = true)
    ∧ ((statusTimerFire (handleFileUploadOk s)).uploadStatus = none)
    ∧ ((handleFileUploadErr s).uploadStatus = some "❌ Failed to index file.")
    ∧ ((handleFileUploadErr s).statusTimer = s.statusTimer)
    ∧ (s.statusTimer = false → statusTimerFire (handleFileUploadErr s) = handleFileUploadErr s)
    ∧ uploadClearDelayMs = 3000 := by
  refine ⟨rfl, rfl, by simp [statusTimerFire, handleFileUploadOk], rfl, rfl, ?_, rfl⟩
  intro h
  simp [statusTimerFire, handleFileUploadErr, h]

/-- Witness for the amended C9 at the concrete upload begun from
    `demoState`: success schedules the timer and its firing clears the
    status; failure leaves a state the timer event does not change. -/
theorem c9_upload_status_policy_witness :
    (statusTimerFire (handleFileUploadOk (uploadButtonClick demoState (some "doc.pdf")).1)).uploadStatus
        = none
    ∧ statusTimerFire (handleFileUploadErr (uploadButtonClick demoState (some "doc.pdf")).1)
        = handleFileUploadErr (uploadButtonClick demoState (some "doc.pdf")).1 :=
  ⟨(c9_upload_status_policy (uploadButtonClick demoState (some "doc.pdf")).1).2.2.1,
   (c9_upload_status_policy (uploadButtonClick demoState (some "doc.pdf")).1).2.2.2.2.2.1
     (by decide)⟩

/-- Auxiliary: the `issued` ghost only grows along a session machine step. -/
theorem sessStep_issued_sub (s : SessState) (e : SessEv) :
    ∀ a ∈ s.issued, a ∈ (sessStep s e).issued := by
  intro a ha
  cases e with
  | fetchSessionsOk capt data =>
      cases data with
      | nil => simpa [sessStep] using ha
      | cons d rest =>
          by_cases hc : capt = none <;> simp [sessStep, hc] <;> tauto
  | fetchSessionsErr => exact ha
  | clickSession i =>
      cases hg : s.sessions[i]? <;> simpa [sessStep, hg] using ha
  | clickNewChat => exact ha
  | createOk sess =>
      cases hp : s.pendingCreates with
      | nil => simpa [sessStep, hp] using ha
      | cons c rest => simpa [sessStep, hp] using Or.inr ha
  | createErr =>
      cases hp : s.pendingCreates with
      | nil => simpa [sessStep, hp] using ha
      | cons c rest => simpa [sessStep, hp] using ha
  | clickDelete i =>
      cases hg : s.sessions[i]? <;> simpa [sessStep, hg] using ha
  | deleteOk =>
      cases hp : s.pendingDeletes with
      | nil => simpa [sessStep, hp] using ha
      | cons c rest =>
          by_cases hc : c.current = some c.id
          · cases hn : c.sessions.filter (fun x => x.id ≠ c.id) <;>
              simpa [sessStep, hp, hc, hn] using ha
          · simpa [sessStep, hp, hc] using ha
  | deleteErr =>
      cases hp : s.pendingDeletes with
      | nil => simpa [sessStep, hp] using ha
      | cons c rest => simpa [sessStep, hp] using ha

/-- Auxiliary: the component-wise invariant holds in the initial state. -/
theorem sessInvParts_init : SessInvParts sessInit := by
  simp [SessInvParts, sessInit]

/-- Auxiliary: each session machine event preserves the component-wise
    invariant — every id that enters the client state comes out of a
    backend response payload. -/
theorem sessInvParts_step (s : SessState) (e : SessEv) (h : SessInvParts s) :
    SessInvParts (sessStep s e) := by
  obtain ⟨hsess, hcur, hcre, hdel⟩ := h
  have hmono : ∀ a ∈ s.issued, a ∈ (sessStep s e).issued := sessStep_issued_sub s e
  cases e with
  | fetchSessionsOk capt data =>
      have hiss : (sessStep s (.fetchSessionsOk capt data)).issued
          = data.map (fun x => x.id) ++ s.issued := by
        cases data with
        | nil => simp [sessStep]
        | cons d rest => by_cases hc : capt = none <;> simp [sessStep, hc]
      have hflds : (sessStep s (.fetchSessionsOk capt data)).sessions = data
          ∧ (sessStep s (.fetchSessionsOk capt data)).pendingCreates = s.pendingCreates
          ∧ (sessStep s (.fetchSessionsOk capt data)).pendingDeletes = s.pendingDeletes := by
        cases data with
        | nil => simp [sessStep]
        | cons d rest => by_cases hc : capt = none <;> simp [sessStep, hc]
      have hcur' : ∀ a, (sessStep s (.fetchSessionsOk capt data)).current = some a →
          a ∈ data.map (fun x => x.id) ++ s.issued := by
        intro a hca
        cases data with
        | nil =>
            simp only [sessStep] at hca
            exact List.mem_append_right _ (hcur a hca)
        | cons d rest =>
            by_cases hc : capt = none
            · have hcc : (sessStep s (.fetchSessionsOk capt (d :: rest))).current
                  = some d.id := by simp [sessStep, hc]
              rw [hcc] at hca
              obtain rfl : d.id = a := by injection hca
              exact List.mem_append_left _ (by simp)
            · have hcc : (sessStep s (.fetchSessionsOk capt (d :: rest))).current
                  = s.current := by simp [sessStep, hc]
              rw [hcc] at hca
              exact List.mem_append_right _ (hcur a hca)
      refine ⟨?_, ?_, ?_, ?_⟩
      · intro x hx
        rw [hflds.1] at hx
        rw [hiss]
        exact List.mem_append_left _ (List.mem_map_of_mem _ hx)
      · intro a hca
        rw [hiss]
        exact hcur' a hca
      · intro c hc x hx
        rw [hflds.2.1] at hc
        rw [hiss]
        exact List.mem_append_right _ (hcre c hc x hx)
      · intro c hc
        rw [hflds.2.2] at hc
        rw [hiss]
        obtain ⟨h1, h2, h3⟩ := hdel c hc
        exact ⟨fun x hx => List.mem_append_right _ (h1 x hx),
               fun a ha => List.mem_append_right _ (h2 a ha),
               List.mem_append_right _ h3⟩
  | fetchSessionsErr => exact ⟨hsess, hcur, hcre, hdel⟩
  | clickSession i =>
      cases hg : s.sessions[i]? with
      | none =>
          have hid : sessStep s (.clickSession i) = s := by simp [sessStep, hg]
          rw [hid]
          exact ⟨hsess, hcur, hcre, hdel⟩
      | some x =>
          refine ⟨?_, ?_, ?_, ?_⟩ <;> simp only [sessStep, hg]
          · exact hsess
          · intro a hca
            simp at hca
            subst hca
            exact hsess x (List.getElem?_mem hg)
          · exact hcre
          · exact hdel
  | clickNewChat =>
      refine ⟨hsess, hcur, ?_, hdel⟩
      intro c hc x hx
      simp only [sessStep] at hc
      rcases List.mem_append.mp hc with hc | hc
      · exact hcre c hc x hx
      · simp at hc
        subst hc
        exact hsess x hx
  | createOk sess =>
      cases hp : s.pendingCreates with
      | nil =>
          have hid : sessStep s (.createOk sess) = s := by simp [sessStep, hp]
          rw [hid]
          exact ⟨hsess, hcur, hcre, hdel⟩
      | cons c rest =>
          refine ⟨?_, ?_, ?_, ?_⟩ <;> simp only [sessStep, hp]
          · intro x hx
            rcases List.mem_cons.mp hx with hx | hx
            · simp [hx]
            · exact List.mem_cons_of_mem _ (hcre c (by simp [hp]) x hx)
          · intro a hca
            simp at hca
            simp [hca]
          · intro d hd x hx
            exact List.mem_cons_of_mem _ (hcre d (by simp [hp, hd]) x hx)
          · intro d hd
            obtain ⟨h1, h2, h3⟩ := hdel d hd
            exact ⟨fun x hx => List.mem_cons_of_mem _ (h1 x hx),
                   fun a ha => List.mem_cons_of_mem _ (h2 a ha),
                   List.mem_cons_of_mem _ h3⟩
  | createErr =>
      cases hp : s.pendingCreates with
      | nil =>
          have hid : sessStep s .createErr = s := by simp [sessStep, hp]
          rw [hid]
          exact ⟨hsess, hcur, hcre, hdel⟩
      | cons c rest =>
          refine ⟨?_, ?_, ?_, ?_⟩ <;> simp only [sessStep, hp]
          · exact hsess
          · exact hcur
          · exact fun d hd => hcre d (by simp [hp, hd])
          · exact hdel
  | clickDelete i =>
      cases hg : s.sessions[i]? with
      | none =>
          have hid : sessStep s (.clickDelete i) = s := by simp [sessStep, hg]
          rw [hid]
          exact ⟨hsess, hcur, hcre, hdel⟩
      | some x =>
          refine ⟨?_, ?_, ?_, ?_⟩ <;> simp only [sessStep, hg]
          · exact hsess
          · exact hcur
          · exact hcre
          · intro c hc
            rcases List.mem_append.mp hc with hc | hc
            · exact hdel c hc
            · simp at hc
              subst hc
              exact ⟨hsess, hcur, hsess x (List.getElem?_mem hg)⟩
  | deleteOk =>
      cases hp : s.pendingDeletes with
      | nil =>
          have hid : sessStep s .deleteOk = s := by simp [sessStep, hp]
          rw [hid]
          exact ⟨hsess, hcur, hcre, hdel⟩
      | cons c rest =>
          obtain ⟨h1, h2, h3⟩ := hdel c (by simp [hp])
          have hrest : ∀ d ∈ rest,
              (∀ x ∈ d.sessions, x.id ∈ s.issued)
                ∧ (∀ a, d.current = some a → a ∈ s.issued) ∧ d.id ∈ s.issued :=
            fun d hd => hdel d (by simp [hp, hd])
          have hfsub : ∀ x ∈ c.sessions.filter (fun y => y.id ≠ c.id), x.id ∈ s.issued :=
            fun x hx => h1 x (List.mem_of_mem_filter hx)
          by_cases hc : c.current = some c.id
          · cases hn : c.sessions.filter (fun y => y.id ≠ c.id) with
            | nil =>
                refine ⟨?_, ?_, ?_, ?_⟩ <;> simp only [sessStep, hp, hc, if_pos, hn]
                · simp
                · simp
                · exact hcre
                · exact hrest
            | cons y t =>
                refine ⟨?_, ?_, ?_, ?_⟩ <;> simp only [sessStep, hp, hc, if_pos, hn]
                · intro x hx
                  exact hfsub x (by rw [hn]; exact hx)
                · intro a hca
                  simp at hca
                  subst hca
                  exact hfsub y (by rw [hn]; exact List.mem_cons_self _ _)
                · exact hcre
                · exact hrest
          · refine ⟨?_, ?_, ?_, ?_⟩ <;> simp only [sessStep, hp, hc, if_neg, ite_false]
            · exact hfsub
            · exact hcur
            · exact hcre
            · exact hrest
  | deleteErr =>
      cases hp : s.pendingDeletes with
      | nil =>
          have hid : sessStep s .deleteErr = s := by simp [sessStep, hp]
          rw [hid]
          exact ⟨hsess, hcur, hcre, hdel⟩
      | cons c rest =>
          refine ⟨?_, ?_, ?_, ?_⟩ <;> simp only [sessStep, hp]
          · exact hsess
          · exact hcur
          · exact hcre
          · exact fun d hd => hdel d (by simp [hp, hd])

/-- Auxiliary: the component-wise invariant gives the flat one. -/
theorem sessInv_of_parts (s : SessState) (h : SessInvParts s) : SessInv s := by
  obtain ⟨hsess, hcur, hcre, hdel⟩ := h
  intro a ha
  rcases List.mem_append.mp ha with h123 | h4
  · rcases List.mem_append.mp h123 with h12 | h3
    · rcases List.mem_append.mp h12 with h1 | h2
      · obtain ⟨x, hx, rfl⟩ := List.mem_map.mp h1
        exact hsess x hx
      · exact hcur a (Option.mem_def.mp (Option.mem_toList.mp h2))
    · obtain ⟨l, hl, hal⟩ := List.mem_flatten.mp h3
      obtain ⟨c, hc, rfl⟩ := List.mem_map.mp hl
      obtain ⟨x, hx, rfl⟩ := List.mem_map.mp hal
      exact hcre c hc x hx
  · obtain ⟨l, hl, hal⟩ := List.mem_flatten.mp h4
    obtain ⟨c, hc, rfl⟩ := List.mem_map.mp hl
    obtain ⟨hd1, hd2, hd3⟩ := hdel c hc
    rcases List.mem_append.mp hal with hab | hcid
    · rcases List.mem_append.mp hab with hxs | hcc
      · obtain ⟨x, hx, rfl⟩ := List.mem_map.mp hxs
        exact hd1 x hx
      · exact hd2 a (Option.mem_def.mp (Option.mem_toList.mp hcc))
    · have : a = c.id := List.mem_singleton.mp hcid
      rw [this]
      exact hd3

/-- Auxiliary: the component-wise invariant is preserved along any trace. -/
theorem sessInvParts_run (es : List SessEv) (s : SessState) (h : SessInvParts s) :
    SessInvParts (es.foldl sessStep s) := by
  induction es generalizing s with
  | nil => exact h
  | cons e rest ih => exact ih _ (sessInvParts_step s e h)

/-- Counterexample to claim C7 as stated: the part_001 client synthesizes
    its session id at mount — with `Math.random()` digits `"abc123xyz"` and
    `Date.now() = 1730000000000` the client holds the id
    `session_abc123xyz_1730000000000` although no backend response ever
    supplied an id (the ghost `backendIds` log is empty and remains empty
    across a whole chat exchange). -/
theorem c7_counterexample :
    (p1Init "abc123xyz" 1730000000000).sessionId = "session_abc123xyz_1730000000000"
    ∧ (p1Init "abc123xyz" 1730000000000).backendIds = []
    ∧ (p1Run "abc123xyz" 1730000000000
          [.setInput "hi", .send, .resolveOk "hello"]).sessionId
        = "session_abc123xyz_1730000000000"
    ∧ (p1Run "abc123xyz" 1730000000000
          [.setInput "hi", .send, .resolveOk "hello"]).backendIds = [] := by
  refine ⟨by decide, rfl, by decide, rfl⟩

/-- Claim C7 as amended: in the multi-session client (App.jsx) every
    session id the client state holds — listed sessions, the current
    selection, and the values captured by outstanding create/delete calls —
    appeared in some backend response along the trace; the single-session
    v2 variant instead synthesizes its session id locally. -/
theorem c7_ids_backend_issued (es : List SessEv) :
    ∀ a ∈ sessHeldIds (sessRun es), a ∈ (sessRun es).issued :=
  sessInv_of_parts _ (sessInvParts_run es sessInit sessInvParts_init)

/-- Witness for the amended C7: after a startup fetch returning sessions
    `[A, B]`, the held id `A` (it is both listed and auto-selected) is among
    the backend-issued ids. -/
theorem c7_ids_backend_issued_witness :
    "A" ∈ (sessRun [SessEv.fetchSessionsOk none demoSessions]).issued :=
  c7_ids_backend_issued [SessEv.fetchSessionsOk none demoSessions] "A" (by decide)

/-- Auxiliary: appending on the right keeps a non-empty head. -/
theorem head?_append_left {α : Type} (l r : List α) (a : α) (h : l.head? = some a) :
    (l ++ r).head? = some a := by
  cases l with
  | nil => simp at h
  | cons x t => simpa using h

/-- Auxiliary: every part_000 event preserves the leading greeting. -/
theorem p0Inv_step (s : P0State) (e : P0Ev) (h : P0Inv s) : P0Inv (p0Step s e) := by
  obtain ⟨h1, h2⟩ := h
  cases e with
  | setInput v => exact ⟨h1, h2⟩
  | send =>
      simp only [p0Step, p0SendStart]
      split
      · exact ⟨h1, h2⟩
      · refine ⟨head?_append_left _ _ _ h1, ?_⟩
        intro p hp
        cases hp
        exact head?_append_left _ _ _ h1
  | resolveOk resp =>
      cases hp : s.pending with
      | none =>
          have hid : p0Step s (.resolveOk resp) = s := by simp [p0Step, p0ResolveOk, hp]
          rw [hid]
          exact ⟨h1, h2⟩
      | some p =>
          have hid : p0Step s (.resolveOk resp)
              = { s with
                    messages := p.newMessages ++ [{ content := resp, isUser := false }]
                    isLoading := false
                    pending := none } := by
            simp [p0Step, p0ResolveOk, hp]
          rw [hid]
          refine ⟨head?_append_left _ _ _ (h2 p hp), ?_⟩
          intro q hq
          simp at hq
  | resolveErr e =>
      cases hp : s.pending with
      | none =>
          have hid : p0Step s (.resolveErr e) = s := by simp [p0Step, p0ResolveErr, hp]
          rw [hid]
          exact ⟨h1, h2⟩
      | some p =>
          have hid : p0Step s (.resolveErr e)
              = { s with
                    messages := p.newMessages ++
                      [{ content := "❌ Backend error: " ++ errorText e, isUser := false }]
                    isLoading := false
                    pending := none } := by
            simp [p0Step, p0ResolveErr, hp]
          rw [hid]
          refine ⟨head?_append_left _ _ _ (h2 p hp), ?_⟩
          intro q hq
          simp at hq

/-- Auxiliary: the part_000 invariant is preserved along any trace. -/
theorem p0Inv_run (es : List P0Ev) (s : P0State) (h : P0Inv s) :
    P0Inv (es.foldl p0Step s) := by
  induction es generalizing s with
  | nil => exact h
  | cons e rest ih => exact ih _ (p0Inv_step s e h)

/-- Auxiliary: every part_001 event preserves the leading greeting. -/
theorem p1Inv_step (s : P1State) (e : P1Ev) (h : P1Inv s) : P1Inv (p1Step s e) := by
  cases e with
  | setInput v => exact h
  | send =>
      simp only [p1Step, p1SendStart]
      split
      · exact h
      · exact head?_append_left _ _ _ h
  | resolveOk resp =>
      simp only [p1Step, p1ResolveOk]
      split
      · exact head?_append_left _ _ _ h
      · exact h
  | resolveErr e =>
      simp only [p1Step, p1ResolveErr]
      split
      · exact head?_append_left _ _ _ h
      · exact h

/-- Auxiliary: the part_001 invariant is preserved along any trace. -/
theorem p1Inv_run (es : List P1Ev) (s : P1State) (h : P1Inv s) :
    P1Inv (es.foldl p1Step s) := by
  induction es generalizing s with
  | nil => exact h
  | cons e rest ih => exact ih _ (p1Inv_step s e h)

/-- Claim C10: in both single-session variants the initial conversation is
    exactly the one hard-coded assistant greeting, and along every event
    trace the conversation is non-empty with an assistant-role
    (`isUser = false`) first element. -/
theorem c10_hard_coded_greeting :
    p0Init.messages = [p0Greeting]
    ∧ (∀ rand now, (p1Init rand now).messages = [p1Greeting])
    ∧ p0Greeting.isUser = false
    ∧ p1Greeting.isUser = false
    ∧ (∀ es, ∃ m t, (p0Run es).messages = m :: t ∧ m.isUser = false)
    ∧ (∀ rand now es, ∃ m t, (p1Run rand now es).messages = m :: t ∧ m.isUser = false) := by
  refine ⟨rfl, fun _ _ => rfl, rfl, rfl, ?_, ?_⟩
  · intro es
    have h1 : (p0Run es).messages.head? = some p0Greeting :=
      (p0Inv_run es p0Init ⟨rfl, by intro p hp; simp [p0Init] at hp⟩).1
    cases hm : (p0Run es).messages with
    | nil => rw [hm] at h1; simp at h1
    | cons m t =>
        rw [hm] at h1
        simp at h1
        exact ⟨m, t, rfl, by rw [h1]; rfl⟩
  · intro rand now es
    have h1 : (p1Run rand now es).messages.head? = some p1Greeting :=
      p1Inv_run es (p1Init rand now) rfl
    cases hm : (p1Run rand now es).messages with
    | nil => rw [hm] at h1; simp at h1
    | cons m t =>
        rw [hm] at h1
        simp at h1
        exact ⟨m, t, rfl, by rw [h1]; rfl⟩

end Chatbot
